import Mathlib

set_option linter.unusedVariables false

/-!
# Verification of the ra-utils core against its specification

Shallow embedding of the C sources of chargebyte's `ra-utils` repository:
* `src/lib/cb_protocol.c` / `cb_protocol.h` — bit-packed device model (CbModel)
* `src/lib/cb_uart.c` — 12-byte operational framing (CbFraming)
* `src/libcbuart/ra_protocol.c` — bootloader protocol engine (RaEngine)
* `src/src/param_block.c` / `param_block.h` — versioned parameter block
* `src/src/ra-raw.c` — monitor tool frame dispatcher

Machine integers are modelled as `Nat` with explicit masking; fallible
code returns `Except`/`Option`; I/O-performing functions are modelled as
pure functions from their inputs (received bytes, status oracles) to
their results together with the trace of emitted data.
-/

namespace RaUtils

/-! ## Bit manipulation macros from `cb_protocol.c`

The C macros operate on an `uint64_t` word:
`BITMASK(len) = (1 << len) - 1`,
`DATA_SET_BITS(dst, bit, len, v)`: clear the field, then or the masked
value shifted into place, and
`DATA_GET_BITS(src, bit, len) = (src >> bit) & BITMASK(len)`. -/

/-- All 64 bits set; complement of a field mask inside an `uint64_t`
is taken against this value. -/
def MASK64 : Nat := 2 ^ 64 - 1

/-- `BITMASK(len)` from `cb_protocol.c`. -/
def bitmask (len : Nat) : Nat := 2 ^ len - 1

/-- `DATA_GET_BITS(src, bit, len)` from `cb_protocol.c`. -/
def dataGetBits (src bit len : Nat) : Nat := (src >>> bit) &&& bitmask len

/-- `DATA_SET_BITS(dst, bit, len, v)` from `cb_protocol.c`: the destination
word keeps every bit outside the field and receives the masked value inside. -/
def dataSetBits (dst bit len v : Nat) : Nat :=
  (dst &&& (MASK64 ^^^ (bitmask len <<< bit))) ||| ((v &&& bitmask len) <<< bit)

/-! ## Constants from `cb_protocol.h` -/

def CB_PROTO_MAX_CONTACTORS : Nat := 2
def CB_PROTO_MAX_PT1000S : Nat := 4
def CB_PROTO_MAX_ESTOPS : Nat := 3

/-- `CS1_SAFESTATE_REASON_HV_SWITCH_MALFUNCTION` is the 16th enumerator
(value 15) of `enum cs1_safestate_reason` in `cb_protocol.h`. -/
def CS1_SAFESTATE_REASON_HV_SWITCH_MALFUNCTION : Nat := 15

/-- `PT1000_TEMPERATURE_UNUSED` from `cb_protocol.h`. -/
def PT1000_TEMPERATURE_UNUSED : Nat := 0x1fff

def PT1000_CHARGING_STOPPED : Nat := 0x1
def PT1000_SELFTEST_FAILED : Nat := 0x2

/-- `FW_PLATFORM_TYPE_CCY` from `cb_protocol.h`. -/
def FW_PLATFORM_TYPE_CCY : Nat := 0x82

/-! ## COM codes from `cb_uart.h` -/

def COM_INQUIRY : Nat := 0xff
def COM_CHARGE_CONTROL : Nat := 0x06
def COM_CHARGE_STATE : Nat := 0x07
def COM_PT1000_STATE : Nat := 0x08
def COM_FW_VERSION : Nat := 0x0A
def COM_GIT_HASH : Nat := 0x0B
def COM_ERROR_MESSAGE : Nat := 0x0E
def COM_CHARGE_STATE_2 : Nat := 0x10
def COM_CHARGE_CONTROL_2 : Nat := 0x11

/-- The COM codes enumerated in `enum cb_uart_com` (`cb_uart.h`),
`COM_MAX` excluded. -/
def definedComs : List Nat :=
  [0xff, 0x00, 0x01, 0x02, 0x03, 0x04, 0x05, 0x06, 0x07, 0x08, 0x09,
   0x0A, 0x0B, 0x0E, 0x10, 0x11, 0x12, 0x13]

/-! ## The device model (`struct safety_controller`, `cb_protocol.h`)

Only the numeric payload words and the MCS flag are modelled; the
string caches (`fw_version_str`, …) and receive timestamps are
rendering-only and carry no information the claims depend on. -/

structure SafetyController where
  charge_control : Nat := 0
  charge_state : Nat := 0
  pt1000 : Nat := 0
  fw_version : Nat := 0
  error_message : Nat := 0
  git_hash : Nat := 0
  mcs : Bool := false
  deriving Repr, DecidableEq

/-! ## Accessors from `cb_protocol.c` -/

/-- `cb_proto_set_pwm_active`: bit 63 of `charge_control`. -/
def cb_proto_set_pwm_active (ctx : SafetyController) (active : Bool) : SafetyController :=
  { ctx with charge_control := dataSetBits ctx.charge_control 63 1 (if active then 1 else 0) }

/-- `cb_proto_get_target_duty_cycle`: bits 48–57 of `charge_control`. -/
def cb_proto_get_target_duty_cycle (ctx : SafetyController) : Nat :=
  dataGetBits ctx.charge_control 48 10

/-- `cb_proto_set_duty_cycle`: clamp the argument to 1000, then store it
into bits 48–57 of `charge_control`. -/
def cb_proto_set_duty_cycle (ctx : SafetyController) (duty_cycle : Nat) : SafetyController :=
  let duty_cycle := if duty_cycle > 1000 then 1000 else duty_cycle
  { ctx with charge_control := dataSetBits ctx.charge_control 48 10 duty_cycle }

/-- `cb_proto_get_safestate_reason`: bits 8–15 of `charge_state`. -/
def cb_proto_get_safestate_reason (ctx : SafetyController) : Nat :=
  dataGetBits ctx.charge_state 8 8

/-- `cb_proto_contactorN_has_error`: the source ignores the contactor
index (`(void)contactor`) and compares the global CS1 safe-state reason
against `CS1_SAFESTATE_REASON_HV_SWITCH_MALFUNCTION`. -/
def cb_proto_contactorN_has_error (ctx : SafetyController) (contactor : Nat) : Bool :=
  cb_proto_get_safestate_reason ctx == CS1_SAFESTATE_REASON_HV_SWITCH_MALFUNCTION

/-- `cb_proto_fw_get_platform_type`: bits 32–39 of `fw_version`. -/
def cb_proto_fw_get_platform_type (ctx : SafetyController) : Nat :=
  dataGetBits ctx.fw_version 32 8

/-- `cb_proto_set_mcs_mode` from `cb_protocol.c`. -/
def cb_proto_set_mcs_mode (ctx : SafetyController) (mcs : Bool) : SafetyController :=
  { ctx with mcs := mcs }

/-- Interpret a 16-bit field as a signed `int16_t` value. -/
def sext16 (x : Nat) : Int :=
  if x < 0x8000 then (x : Int) else (x : Int) - 0x10000

/-- `cb_proto_pt1000_is_active`: the 14-bit field at
`16*(CB_PROTO_MAX_PT1000S-1-channel)+2` differs from the unused sentinel. -/
def cb_proto_pt1000_is_active (ctx : SafetyController) (channel : Nat) : Bool :=
  dataGetBits ctx.pt1000 (16 * (CB_PROTO_MAX_PT1000S - 1 - channel) + 2) 14
    != PT1000_TEMPERATURE_UNUSED

/-- `cb_proto_pt1000_get_temp` in units of 0.1 °C: the source loads the
whole 16-bit field into an `int16_t` and arithmetically shifts it right
by two (`d >> 2`), then divides by 10.0 for display.  Arithmetic right
shift by 2 is floor division by 4 on the sign-extended value. -/
def cb_proto_pt1000_get_temp_tenths (ctx : SafetyController) (channel : Nat) : Int :=
  Int.fdiv (sext16 (dataGetBits ctx.pt1000 (16 * (CB_PROTO_MAX_PT1000S - 1 - channel)) 16)) 4

/-- `cb_proto_pt1000_get_errors`: the two low bits of the channel field. -/
def cb_proto_pt1000_get_errors (ctx : SafetyController) (channel : Nat) : Nat :=
  dataGetBits ctx.pt1000 (16 * (CB_PROTO_MAX_PT1000S - 1 - channel)) 2

/-! ## Frame dispatcher of the monitor tool (`ra-raw.c`, main loop)

The `switch (com)` on a received frame: `CHARGE_STATE_2` enables MCS mode
and falls through to storing `charge_state`; `FW_VERSION` stores the word
and enables MCS mode when the platform byte reads CCY; `PT1000_STATE` and
`GIT_HASH` store their words; every other COM is ignored. -/

def dispatchStep (ctx : SafetyController) (com : Nat) (data : Nat) : SafetyController :=
  if com = COM_CHARGE_STATE_2 then
    let ctx := cb_proto_set_mcs_mode ctx true
    { ctx with charge_state := data }
  else if com = COM_CHARGE_STATE then
    { ctx with charge_state := data }
  else if com = COM_PT1000_STATE then
    { ctx with pt1000 := data }
  else if com = COM_FW_VERSION then
    let ctx := { ctx with fw_version := data }
    if cb_proto_fw_get_platform_type ctx = FW_PLATFORM_TYPE_CCY then
      cb_proto_set_mcs_mode ctx true
    else
      ctx
  else if com = COM_GIT_HASH then
    { ctx with git_hash := data }
  else
    ctx

/-! ## Byte-order helpers (`htobe64` / `be64toh`, `htobe16`, `htobe32`) -/

/-- Big-endian byte encoding of `v` into `n` bytes (most significant first). -/
def beBytes : Nat → Nat → List Nat
  | 0, _ => []
  | n + 1, v => beBytes n (v / 256) ++ [v % 256]

/-- Big-endian byte decoding (`be64toh` etc. on a byte array). -/
def beToNat (l : List Nat) : Nat := l.foldl (fun a b => a * 256 + b) 0

/-! ## CRC-8/J1850 (`crc8_j1850.c`) -/

/-- Modelled from the spec: the `crc8_j1850.c` implementation itself is not
part of the sources at hand (only `cb_uart.c` includes its header).  The spec
defines it as CRC-8/J1850: polynomial `0x1D`, init `0xFF`, xor-out `0xFF`,
not reflected.  One polynomial-division step on the running 8-bit value. -/
def crc8_j1850_bitStep (c : Nat) : Nat :=
  if c.testBit 7 then ((c <<< 1) ^^^ 0x1D) % 256 else (c <<< 1) % 256

/-- Modelled from the spec: absorb one input byte (xor into the running
value, then eight polynomial-division steps). -/
def crc8_j1850_byteStep (c b : Nat) : Nat :=
  Nat.iterate crc8_j1850_bitStep 8 (c ^^^ b)

/-- Modelled from the spec: CRC-8/J1850 of a byte list, init `0xFF`,
xor-out `0xFF`. -/
def crc8_j1850 (l : List Nat) : Nat :=
  0xFF ^^^ l.foldl crc8_j1850_byteStep 0xFF

/-! ## Operational framing (`cb_uart.c`) -/

/-- `CB_SOF` marker. -/
def CB_SOF : Nat := 0xA5
/-- `CB_EOF` marker. -/
def CB_EOF : Nat := 0x03

/-- `cb_uart_send`: the 12 bytes of a `struct uart_frame` put on the wire:
SOF, COM (a `uint8_t` field), the payload big-endian, the CRC-8/J1850 over
COM and payload (9 bytes), EOF. -/
def cb_uart_send_frame (com data : Nat) : List Nat :=
  [CB_SOF, com % 256] ++ beBytes 8 data
    ++ [crc8_j1850 (com % 256 :: beBytes 8 data), CB_EOF]

/-- `cb_uart_recv` applied to the 12 bytes delivered by
`uart_read_with_timeout`: check SOF, then EOF, then the CRC over COM and
payload; on success return the COM byte and the payload in host order. -/
def cb_uart_recv_frame (b : List Nat) : Except Unit (Nat × Nat) :=
  match b with
  | [sof, com, d0, d1, d2, d3, d4, d5, d6, d7, crc, eof] =>
    if sof ≠ CB_SOF then .error ()
    else if eof ≠ CB_EOF then .error ()
    else if crc8_j1850 [com, d0, d1, d2, d3, d4, d5, d6, d7] ≠ crc then .error ()
    else .ok (com, beToNat [d0, d1, d2, d3, d4, d5, d6, d7])
  | _ => .error ()

/-! ## Receive re-synchronisation (`cb_uart_recv_and_sync`, `cb_uart.c`)

The underlying transport is abstracted to the sequence of outcomes that
successive `cb_uart_recv` calls would produce. -/

/-- Outcome of one `cb_uart_recv` call. -/
inductive RecvOutcome where
  /-- A valid frame was decoded. -/
  | ok (com : Nat) (data : Nat)
  /-- `cb_uart_recv` failed with `errno == EBADMSG` (bad SOF/EOF/CRC). -/
  | badFrame
  /-- `cb_uart_recv` failed with any other `errno` (e.g. timeout). -/
  | ioError
  deriving Repr, DecidableEq

/-- Result surfaced by `cb_uart_recv_and_sync`. -/
inductive SyncResult where
  | ok (com : Nat) (data : Nat)
  | badFrame
  | ioError
  deriving Repr, DecidableEq

/-- `CB_UART_MAX_SYNC_TRIALS` from `cb_uart.h`. -/
def CB_UART_MAX_SYNC_TRIALS : Nat := 3

/-- The `retry:` loop of `cb_uart_recv_and_sync`: `trial--`, one receive;
on `EBADMSG` flush the input and retry while `trial` is non-zero.
Returns the surfaced result together with the number of receive attempts
and the number of `uart_flush_input` calls. -/
def recvAndSyncLoop : Nat → List RecvOutcome → SyncResult × Nat × Nat
  | trial, outs =>
    let trial' := trial - 1
    match outs with
    | [] => (.ioError, 1, 0)
    | o :: rest =>
      match o with
      | .ok c d => (.ok c d, 1, 0)
      | .ioError => (.ioError, 1, 0)
      | .badFrame =>
        if h : trial' = 0 then (.badFrame, 1, 1)
        else
          let r := recvAndSyncLoop trial' rest
          (r.1, r.2.1 + 1, r.2.2 + 1)
  termination_by trial _ => trial
  decreasing_by simp_wf; omega

/-- `cb_uart_recv_and_sync`: run the retry loop with
`CB_UART_MAX_SYNC_TRIALS` trials. -/
def cb_uart_recv_and_sync (outs : List RecvOutcome) : SyncResult × Nat × Nat :=
  recvAndSyncLoop CB_UART_MAX_SYNC_TRIALS outs

/-! ## Bootloader protocol (`ra_protocol.c`) -/

/-- Command codes from `ra_protocol.c`. -/
def INQUIRY_CMD : Nat := 0x00
def ERASE_CMD : Nat := 0x12
def WRITE_CMD : Nat := 0x13
def READ_CMD : Nat := 0x15
def BAUDRATE_SETTING_CMD : Nat := 0x34

/-- `STATUSCODE_OK`. -/
def STATUSCODE_OK : Nat := 0x00

/-- Packet markers `SOH`, `SOD`, `ETX`. -/
def SOH : Nat := 0x01
def SOD : Nat := 0x81
def ETX : Nat := 0x03

/-- `RES_ERR_MASK`. -/
def RES_ERR_MASK : Nat := 0x80

/-- `MAX_DATA_PACKET_PAYLOAD`. -/
def MAX_DATA_PACKET_PAYLOAD : Nat := 1024

/-- `ra_update_checksum`: 8-bit sum with overflow over the buffer, then
the two's complement (`0x00 - chksum` on a `uint8_t`). -/
def ra_update_checksum (buf : List Nat) : Nat :=
  (256 - buf.foldl (fun a b => (a + b) % 256) 0) % 256

/-- `ra_is_checksum_invalid`: recompute and compare with the SUM byte. -/
def ra_is_checksum_invalid (buf : List Nat) (sum : Nat) : Bool :=
  ra_update_checksum buf != sum

/-- The static `struct inquiry_cmd` initializer of `ra_inquiry`:
`{ SOH, 0x00, 0x01, INQUIRY_CMD, 0xff, ETX }`. -/
def inquiry_cmd_bytes : List Nat := [SOH, 0x00, 0x01, INQUIRY_CMD, 0xff, ETX]

/-- `ra_set_baudrate`'s `struct baudrate_cmd`: SOH, LEN=0x0005 big-endian,
COM=`BAUDRATE_SETTING_CMD`, the baud rate big-endian, the checksum over
LEN..BRT (7 bytes), ETX. -/
def baudrate_cmd_bytes (baudrate : Nat) : List Nat :=
  let body := [0x00, 0x05, BAUDRATE_SETTING_CMD] ++ beBytes 4 baudrate
  [SOH] ++ body ++ [ra_update_checksum body, ETX]

/-- `ra_is_invalid_status_pkt` on the 7 received bytes
`[sod, lnh, lnl, res, sts, sum, etx]` of a `struct status_rsp`. -/
def ra_is_invalid_status_pkt (b : List Nat) (cmd : Nat) : Bool :=
  b.getD 0 0 != SOD
  || b.getD 6 0 != ETX
  || (b.getD 1 0) * 256 + b.getD 2 0 != 2
  || (b.getD 3 0 != cmd && b.getD 3 0 != (cmd ||| RES_ERR_MASK))
  || ra_is_checksum_invalid [b.getD 1 0, b.getD 2 0, b.getD 3 0, b.getD 4 0] (b.getD 5 0)

/-- Success condition shared by `ra_inquiry`, `ra_set_baudrate` and the
status waits of `ra_rwe_cmd` / `ra_write_data`: the packet must be valid,
`RES` must equal the command and `STS` must be `STATUSCODE_OK`. -/
def ra_status_ok (b : List Nat) (cmd : Nat) : Bool :=
  !(ra_is_invalid_status_pkt b cmd) && b.getD 3 0 == cmd && b.getD 4 0 == STATUSCODE_OK

/-- Events of the `ra_comm_setup` handshake, in order. -/
inductive SetupEvent where
  | sleep (ms : Nat)
  | flushInput
  | send (bytes : List Nat)
  | recv (bytes : List Nat)
  deriving Repr, DecidableEq

/-- `STARTUP_DELAY` / `LOW_PULSE_DELAY` from `ra_protocol.c` (ms). -/
def RA_STARTUP_DELAY : Nat := 500
def LOW_PULSE_DELAY : Nat := 100

/-- `ACK_PATTERN`, `BOOT_CODE_PATTERN`, `LOW_PULSE_PATTERN`,
`GENERIC_CODE_PATTERN` from `ra_protocol.c`. -/
def ACK_PATTERN : Nat := 0x00
def BOOT_CODE_PATTERN : Nat := 0xC3
def LOW_PULSE_PATTERN : Nat := 0x00
def GENERIC_CODE_PATTERN : Nat := 0x55

/-- `ra_comm_setup` as a function of the two response bytes the MCU sends:
sleep, flush, write `0x00`, sleep 100 ms, write `0x00`, read one byte and
require `ACK_PATTERN`; then write `0x55`, read one byte and require
`BOOT_CODE_PATTERN`.  Returns success and the event trace. -/
def ra_comm_setup (ack boot : Nat) : Bool × List SetupEvent :=
  let pre := [SetupEvent.sleep RA_STARTUP_DELAY, SetupEvent.flushInput,
              SetupEvent.send [LOW_PULSE_PATTERN], SetupEvent.sleep LOW_PULSE_DELAY,
              SetupEvent.send [LOW_PULSE_PATTERN], SetupEvent.recv [ack]]
  if ack ≠ ACK_PATTERN then (false, pre)
  else
    let pre2 := pre ++ [SetupEvent.send [GENERIC_CODE_PATTERN], SetupEvent.recv [boot]]
    if boot ≠ BOOT_CODE_PATTERN then (false, pre2) else (true, pre2)

/-! ## Write flow (`ra_rwe_cmd`, `ra_write_data`, `ra_write`) -/

/-- `RWE_CMD_LENGTH`. -/
def RWE_CMD_LENGTH : Nat := 0x0009

/-- `ra_rwe_cmd`'s `struct rwe_cmd` bytes: SOH, LEN=9 big-endian, COM,
start and end address big-endian, checksum over LEN..EAD (11 bytes), ETX. -/
def rwe_cmd_bytes (com sad ead : Nat) : List Nat :=
  let body := beBytes 2 RWE_CMD_LENGTH ++ [com] ++ beBytes 4 sad ++ beBytes 4 ead
  [SOH] ++ body ++ [ra_update_checksum body, ETX]

/-- `ra_write_data`'s `struct data_pkt` bytes for one chunk: SOD,
LEN=`len+1` big-endian, RES=`WRITE_CMD`, the payload, the checksum over
LEN..DATA (`len+3` bytes), ETX. -/
def write_data_pkt_bytes (payload : List Nat) : List Nat :=
  let body := beBytes 2 (payload.length + 1) ++ [WRITE_CMD] ++ payload
  [SOD] ++ body ++ [ra_update_checksum body, ETX]

/-- The while loop of `ra_write`: emit chunks of at most
`MAX_DATA_PACKET_PAYLOAD` bytes, each followed by a wait for an OK status.
`ok` tells for each successive status wait whether the MCU answered OK
(index 0 is the wait after the WRITE command itself).  Returns overall
success and the list of emitted data-packet payloads. -/
def raWriteLoop (ok : Nat → Bool) (k : Nat) (rest : List Nat) : Bool × List (List Nat) :=
  match rest with
  | [] => (true, [])
  | x :: xs =>
    let chunk := (x :: xs).take MAX_DATA_PACKET_PAYLOAD
    if ok k then
      let r := raWriteLoop ok (k + 1) ((x :: xs).drop MAX_DATA_PACKET_PAYLOAD)
      (r.1, chunk :: r.2)
    else (false, [chunk])
  termination_by rest.length
  decreasing_by
    simp_wf
    simp [List.length_drop, MAX_DATA_PACKET_PAYLOAD]

/-- `ra_write`: compute `end_addr = start_addr + len - 1` in `uint32_t`
arithmetic, send the WRITE command, wait for an OK status, then run the
chunk loop.  Returns overall success and the trace of emitted packets
(the command packet first, then one data packet per chunk). -/
def ra_write (start_addr : Nat) (buffer : List Nat) (ok : Nat → Bool) :
    Bool × List (List Nat) :=
  let end_addr := (start_addr + buffer.length + (2 ^ 32 - 1)) % 2 ^ 32
  let cmd := rwe_cmd_bytes WRITE_CMD (start_addr % 2 ^ 32) end_addr
  if ok 0 then
    let r := raWriteLoop ok 1 buffer
    (r.1, cmd :: r.2.map write_data_pkt_bytes)
  else (false, [cmd])

/-- The successive chunk sizes `min(len - already_written, 1024)` produced
by the `ra_write` loop. -/
def chunkLens (len : Nat) : List Nat :=
  if len = 0 then []
  else min len MAX_DATA_PACKET_PAYLOAD :: chunkLens (len - MAX_DATA_PACKET_PAYLOAD)
  termination_by len
  decreasing_by simp_wf; simp [MAX_DATA_PACKET_PAYLOAD]; omega

/-- The buffer cut into successive chunks of at most
`MAX_DATA_PACKET_PAYLOAD` bytes, as emitted by the `ra_write` loop. -/
def chunksOf (l : List Nat) : List (List Nat) :=
  if l = [] then []
  else l.take MAX_DATA_PACKET_PAYLOAD :: chunksOf (l.drop MAX_DATA_PACKET_PAYLOAD)
  termination_by l.length
  decreasing_by
    simp_wf
    rename_i h
    have : l.length ≠ 0 := fun hh => h (List.eq_nil_of_length_eq_zero hh)
    simp [List.length_drop, MAX_DATA_PACKET_PAYLOAD]
    omega

/-! ## Parameter block (`param_block.c`, `param_block.h`) -/

/-- `MARKER` from `param_block.h`. -/
def MARKER : Nat := 0xC001F00D
/-- `CHANNEL_DISABLE_VALUE` from `param_block.h`. -/
def CHANNEL_DISABLE_VALUE : Nat := 0x1fff
/-- `PARAMETER_BLOCK_VERSION` from `param_block.h`. -/
def PARAMETER_BLOCK_VERSION : Nat := 1

/-- `CONTACTOR_WITH_FEEDBACK_NO` / `CONTACTOR_WITH_FEEDBACK_NC`
from `enum contactor_type`. -/
def CONTACTOR_WITH_FEEDBACK_NO : Nat := 2
def CONTACTOR_WITH_FEEDBACK_NC : Nat := 3

/-- `PB_READ_ERROR_MAGIC` / `PB_READ_ERROR_CRC` from `param_block.h`;
`-1` (generic I/O failure) is modelled as `.ioError`. -/
inductive PbReadError where
  | ioError
  | badMagic
  | badCrc
  deriving Repr, DecidableEq

/-- The 256-entry CRC-8 table (`crc8_table` in `ra-gen-param-block.c`,
polynomial 0x2F). -/
def crc8_table : List Nat :=
  [0x00, 0x2f, 0x5e, 0x71, 0xbc, 0x93, 0xe2, 0xcd, 0x57, 0x78, 0x09, 0x26, 0xeb, 0xc4, 0xb5, 0x9a,
   0xae, 0x81, 0xf0, 0xdf, 0x12, 0x3d, 0x4c, 0x63, 0xf9, 0xd6, 0xa7, 0x88, 0x45, 0x6a, 0x1b, 0x34,
   0x73, 0x5c, 0x2d, 0x02, 0xcf, 0xe0, 0x91, 0xbe, 0x24, 0x0b, 0x7a, 0x55, 0x98, 0xb7, 0xc6, 0xe9,
   0xdd, 0xf2, 0x83, 0xac, 0x61, 0x4e, 0x3f, 0x10, 0x8a, 0xa5, 0xd4, 0xfb, 0x36, 0x19, 0x68, 0x47,
   0xe6, 0xc9, 0xb8, 0x97, 0x5a, 0x75, 0x04, 0x2b, 0xb1, 0x9e, 0xef, 0xc0, 0x0d, 0x22, 0x53, 0x7c,
   0x48, 0x67, 0x16, 0x39, 0xf4, 0xdb, 0xaa, 0x85, 0x1f, 0x30, 0x41, 0x6e, 0xa3, 0x8c, 0xfd, 0xd2,
   0x95, 0xba, 0xcb, 0xe4, 0x29, 0x06, 0x77, 0x58, 0xc2, 0xed, 0x9c, 0xb3, 0x7e, 0x51, 0x20, 0x0f,
   0x3b, 0x14, 0x65, 0x4a, 0x87, 0xa8, 0xd9, 0xf6, 0x6c, 0x43, 0x32, 0x1d, 0xd0, 0xff, 0x8e, 0xa1,
   0xe3, 0xcc, 0xbd, 0x92, 0x5f, 0x70, 0x01, 0x2e, 0xb4, 0x9b, 0xea, 0xc5, 0x08, 0x27, 0x56, 0x79,
   0x4d, 0x62, 0x13, 0x3c, 0xf1, 0xde, 0xaf, 0x80, 0x1a, 0x35, 0x44, 0x6b, 0xa6, 0x89, 0xf8, 0xd7,
   0x90, 0xbf, 0xce, 0xe1, 0x2c, 0x03, 0x72, 0x5d, 0xc7, 0xe8, 0x99, 0xb6, 0x7b, 0x54, 0x25, 0x0a,
   0x3e, 0x11, 0x60, 0x4f, 0x82, 0xad, 0xdc, 0xf3, 0x69, 0x46, 0x37, 0x18, 0xd5, 0xfa, 0x8b, 0xa4,
   0x05, 0x2a, 0x5b, 0x74, 0xb9, 0x96, 0xe7, 0xc8, 0x52, 0x7d, 0x0c, 0x23, 0xee, 0xc1, 0xb0, 0x9f,
   0xab, 0x84, 0xf5, 0xda, 0x17, 0x38, 0x49, 0x66, 0xfc, 0xd3, 0xa2, 0x8d, 0x40, 0x6f, 0x1e, 0x31,
   0x76, 0x59, 0x28, 0x07, 0xca, 0xe5, 0x94, 0xbb, 0x21, 0x0e, 0x7f, 0x50, 0x9d, 0xb2, 0xc3, 0xec,
   0xd8, 0xf7, 0x86, 0xa9, 0x64, 0x4b, 0x3a, 0x15, 0x8f, 0xa0, 0xd1, 0xfe, 0x33, 0x1c, 0x6d, 0x42]

/-- `crc8` from `ra-gen-param-block.c`: table-driven, init `0xFF`, final
complement (`~_crc` on a `uint8_t`). -/
def crc8 (l : List Nat) : Nat :=
  0xFF ^^^ l.foldl (fun c b => crc8_table.getD ((c ^^^ b) % 256) 0) 0xFF

/-- Offsets and sizes of `struct unversioned_param_block` (packed, 22
bytes): `sob` 0–3, `temperature` 4–11, `contactor` 12–13, `estop` 14–16,
`eob` 17–20, `crc` 21. -/
def UNVERSIONED_PB_SIZE : Nat := 22

/-- Size of the packed `struct param_block` (36 bytes): `sob` 0–3,
`version` 4–5, `temperature` 6–13, `temperature_resistance_offset` 14–21,
`contactor_type` 22–23, `contactor_close_time` 24–25,
`contactor_open_time` 26–27, `estop` 28–30, `eob` 31–34, `crc` 35. -/
def PARAM_BLOCK_SIZE : Nat := 36

/-- The little-endian bytes of `MARKER`. -/
def markerBytes : List Nat := [0x0D, 0xF0, 0x01, 0xC0]

/-- Replace the bytes of `b` starting at offset `off` by `vals`. -/
def setBytes (b : List Nat) (off : Nat) (vals : List Nat) : List Nat :=
  b.take off ++ vals ++ b.drop (off + vals.length)

/-- `pb_refresh_crc`: recompute the CRC-8 over all bytes but the last and
store it in the final byte. -/
def pb_refresh_crc (b : List Nat) : List Nat :=
  b.take (PARAM_BLOCK_SIZE - 1) ++ [crc8 (b.take (PARAM_BLOCK_SIZE - 1))]

/-- `pb_check_crc` (versioned block, 36 bytes). -/
def pb_check_crc (b : List Nat) : Bool :=
  b.getD (PARAM_BLOCK_SIZE - 1) 0 == crc8 (b.take (PARAM_BLOCK_SIZE - 1))

/-- `pb_check_unversioned_param_block_crc` (legacy block, 22 bytes). -/
def pb_check_unversioned_param_block_crc (b : List Nat) : Bool :=
  b.getD (UNVERSIONED_PB_SIZE - 1) 0 == crc8 (b.take (UNVERSIONED_PB_SIZE - 1))

/-- `pb_init`: zero the block, set both markers, version 1, all four
temperature channels to `CHANNEL_DISABLE_VALUE` (little-endian
`[0xFF, 0x1F]`), then refresh the CRC. -/
def pb_init_bytes : List Nat :=
  pb_refresh_crc
    (markerBytes ++ [PARAMETER_BLOCK_VERSION, 0x00]
      ++ [0xFF, 0x1F, 0xFF, 0x1F, 0xFF, 0x1F, 0xFF, 0x1F]
      ++ List.replicate 17 0 ++ markerBytes ++ [0x00])

/-- `pb_migrate_unversioned_to_versioned`: copy temperatures, contactor
types and e-stop types from the legacy block into the fresh block, remap
`CONTACTOR_WITH_FEEDBACK_NO` to `CONTACTOR_WITH_FEEDBACK_NC`, refresh
the CRC. -/
def pb_migrate_unversioned_to_versioned (old new : List Nat) : List Nat :=
  let remap := fun c => if c = CONTACTOR_WITH_FEEDBACK_NO then CONTACTOR_WITH_FEEDBACK_NC else c
  let new := setBytes new 6 ((old.drop 4).take 8)
  let new := setBytes new 22 (((old.drop 12).take 2).map remap)
  let new := setBytes new 28 ((old.drop 14).take 3)
  pb_refresh_crc new

/-- `pb_read` on the byte stream `f`: read the 22-byte legacy shape,
require the leading magic; if the trailing magic also matches at the
legacy offset, migrate (CRC-checked against the legacy CRC); otherwise
read the remaining 14 bytes and validate the versioned magic and CRC. -/
def pb_read (f : List Nat) : Except PbReadError (List Nat) :=
  if f.length < UNVERSIONED_PB_SIZE then .error .ioError
  else
    let old_pb := f.take UNVERSIONED_PB_SIZE
    if old_pb.take 4 ≠ markerBytes then .error .badMagic
    else if (old_pb.drop 17).take 4 = markerBytes then
      let migrated := pb_migrate_unversioned_to_versioned old_pb pb_init_bytes
      if ¬ pb_check_unversioned_param_block_crc old_pb then .error .badCrc
      else .ok migrated
    else if f.length < PARAM_BLOCK_SIZE then .error .ioError
    else
      let pb := f.take PARAM_BLOCK_SIZE
      if (pb.drop 31).take 4 ≠ markerBytes then .error .badMagic
      else if ¬ pb_check_crc pb then .error .badCrc
      else .ok pb

/-! ## Generic facts about the bit macros -/

/-- Bit view of `DATA_SET_BITS`: inside the field the masked value appears,
outside it (below bit 64) the destination is untouched. -/
theorem testBit_dataSetBits (dst bit len v i : Nat) (h : bit + len ≤ 64) :
    (dataSetBits dst bit len v).testBit i =
      if bit ≤ i ∧ i < bit + len then v.testBit (i - bit)
      else (dst.testBit i && decide (i < 64)) := by
  simp only [dataSetBits, MASK64, bitmask, Nat.testBit_lor, Nat.testBit_land, Nat.testBit_xor,
    Nat.testBit_shiftLeft, Nat.testBit_two_pow_sub_one]
  by_cases h1 : bit ≤ i <;> by_cases h2 : i - bit < len <;> by_cases h3 : i < 64 <;>
    simp [h1, h2, h3] <;>
    first
      | omega
      | rw [if_pos (by omega)]
      | rw [if_neg (by omega)]

/-- Reading back the field just written returns the masked value. -/
theorem dataGetBits_dataSetBits (dst bit len v : Nat) (h : bit + len ≤ 64) :
    dataGetBits (dataSetBits dst bit len v) bit len = v &&& bitmask len := by
  apply Nat.eq_of_testBit_eq
  intro j
  simp only [dataGetBits, bitmask, Nat.testBit_land, Nat.testBit_shiftRight,
    Nat.testBit_two_pow_sub_one, testBit_dataSetBits dst bit len v (bit + j) h]
  by_cases h2 : j < len <;> simp [h2]

end RaUtils


namespace RaUtils

/-- Folding 8-bit addition with overflow relates to the list sum modulo 256. -/
theorem foldl_add_mod_eq (l : List Nat) :
    ∀ a, l.foldl (fun x b => (x + b) % 256) a % 256 = (a + l.sum) % 256 := by
  induction l with
  | nil => intro a; simp
  | cons x xs ih =>
    intro a
    simp only [List.foldl_cons, List.sum_cons]
    rw [ih]
    omega

/-- The 8-bit folding sum stays below 256 when started below 256. -/
theorem foldl_add_mod_lt (l : List Nat) :
    ∀ a, a < 256 → l.foldl (fun x b => (x + b) % 256) a < 256 := by
  induction l with
  | nil => intro a h; simpa using h
  | cons x xs ih =>
    intro a h
    simp only [List.foldl_cons]
    exact ih _ (Nat.mod_lt _ (by norm_num))

/-- Claim C6: for every bootloader packet produced by the checksum writer,
the SUM byte is the 8-bit two's complement of the sum of the bytes from LEN
up to the byte before SUM, so SUM plus that sum is congruent to 0 modulo
256; and the checksum validator accepts a packet exactly when this law
holds. -/
theorem ra_checksum_law (buf : List Nat) :
    (ra_update_checksum buf + buf.sum) % 256 = 0 ∧
    (∀ s, s < 256 → (ra_is_checksum_invalid buf s = false ↔ (s + buf.sum) % 256 = 0)) := by
  have h1 := foldl_add_mod_eq buf 0
  have h2 := foldl_add_mod_lt buf 0 (by norm_num)
  constructor
  · unfold ra_update_checksum
    omega
  · intro s hs
    unfold ra_is_checksum_invalid ra_update_checksum
    rw [bne_eq_false_iff_eq]
    constructor <;> intro h <;> omega

theorem ra_checksum_law_witness :
    0xFE < 256 ∧ (ra_is_checksum_invalid [0x00, 0x02, 0x00, 0x00] 0xFE = false ↔
      (0xFE + [0x00, 0x02, 0x00, 0x00].sum) % 256 = 0) :=
  ⟨by norm_num, (ra_checksum_law [0x00, 0x02, 0x00, 0x00]).2 0xFE (by norm_num)⟩

end RaUtils

namespace RaUtils

/-- Claim C2, counterexample: the BAUDRATE_SETTING command for 115200 is
not the claimed byte sequence `01 00 05 34 00 01 C2 00 C4 03`; the checksum
byte the code computes is `0x04`, not `0xC4`. -/
theorem baudrate_cmd_checksum_counterexample :
    baudrate_cmd_bytes 115200 ≠ [0x01, 0x00, 0x05, 0x34, 0x00, 0x01, 0xC2, 0x00, 0xC4, 0x03] ∧
    baudrate_cmd_bytes 115200 = [0x01, 0x00, 0x05, 0x34, 0x00, 0x01, 0xC2, 0x00, 0x04, 0x03] := by
  constructor
  · decide
  · decide

/-- Claim C2 (amended): the bootloader handshake and setup emit exactly the
golden transcript: byte `0x00`, a 100 ms pause, byte `0x00`, then require
the single response byte `0x00`; emit `0x55` and require response `0xC3`;
the INQUIRY command is `01 00 01 00 FF 03` and succeeds only on the status
response `81 00 02 00 00 FE 03`; the BAUDRATE_SETTING command for 115200 is
`01 00 05 34 00 01 C2 00 04 03` (checksum byte `0x04`); any mismatching
response byte fails the session. -/
theorem ra_comm_setup_golden_transcript :
    (∀ ack boot, (ra_comm_setup ack boot).1 = true ↔ (ack = 0x00 ∧ boot = 0xC3)) ∧
    (ra_comm_setup 0x00 0xC3).2 =
      [SetupEvent.sleep 500, SetupEvent.flushInput, SetupEvent.send [0x00],
       SetupEvent.sleep 100, SetupEvent.send [0x00], SetupEvent.recv [0x00],
       SetupEvent.send [0x55], SetupEvent.recv [0xC3]] ∧
    inquiry_cmd_bytes = [0x01, 0x00, 0x01, 0x00, 0xFF, 0x03] ∧
    (∀ b0 b1 b2 b3 b4 b5 b6 : Nat,
      ra_status_ok [b0, b1, b2, b3, b4, b5, b6] INQUIRY_CMD = true ↔
        [b0, b1, b2, b3, b4, b5, b6] = [0x81, 0x00, 0x02, 0x00, 0x00, 0xFE, 0x03]) ∧
    baudrate_cmd_bytes 115200 = [0x01, 0x00, 0x05, 0x34, 0x00, 0x01, 0xC2, 0x00, 0x04, 0x03] := by
  refine ⟨?_, by decide, by decide, ?_, by decide⟩
  · intro ack boot
    unfold ra_comm_setup
    split_ifs <;> simp_all [ACK_PATTERN, BOOT_CODE_PATTERN]
  · intro b0 b1 b2 b3 b4 b5 b6
    constructor
    · intro h
      simp [ra_status_ok, ra_is_invalid_status_pkt, ra_is_checksum_invalid,
        ra_update_checksum, SOD, ETX, INQUIRY_CMD, RES_ERR_MASK, STATUSCODE_OK] at h
      obtain ⟨⟨⟨⟨⟨⟨hb0, hb6⟩, hb12⟩, hb3or⟩, hsum⟩, hb3⟩, hb4⟩ := h
      subst hb3
      subst hb4
      have hb1 : b1 = 0 := by omega
      have hb2 : b2 = 2 := by omega
      subst hb0
      subst hb6
      subst hb1
      subst hb2
      norm_num at hsum
      subst hsum
      rfl
    · intro h
      simp only [List.cons.injEq, and_true] at h
      obtain ⟨rfl, rfl, rfl, rfl, rfl, rfl, rfl⟩ := h
      decide

end RaUtils

namespace RaUtils

/-- The retry loop never makes more receive attempts than `max 1 trial`. -/
theorem recvAndSyncLoop_attempts_le (trial : Nat) (outs : List RecvOutcome) :
    (recvAndSyncLoop trial outs).2.1 ≤ max 1 trial := by
  induction trial using Nat.strong_induction_on generalizing outs with
  | _ trial ih =>
    rw [recvAndSyncLoop.eq_def]
    rcases outs with _ | ⟨o, rest⟩
    · simp
    · rcases o with ⟨c, d⟩ | _ | _ <;> simp
      split_ifs with h
      · simp
      · simp only
        have := ih (trial - 1) (by omega) rest
        omega

/-- Claim C5: when `cb_uart_recv_and_sync`'s underlying 12-byte decode
fails with BAD_FRAME (`EBADMSG`), it flushes the transport input and
retries the receive; at most 3 receive attempts are ever made, and after 3
BAD_FRAME failures (each followed by a flush) the error is surfaced to the
caller, while a success within the first attempts recovers. -/
theorem recv_and_sync_flush_retry (outs : List RecvOutcome) :
    (cb_uart_recv_and_sync outs).2.1 ≤ CB_UART_MAX_SYNC_TRIALS ∧
    (outs.take 3 = [RecvOutcome.badFrame, RecvOutcome.badFrame, RecvOutcome.badFrame] →
      cb_uart_recv_and_sync outs = (SyncResult.badFrame, 3, 3)) ∧
    (∀ c d rest, outs = RecvOutcome.badFrame :: RecvOutcome.ok c d :: rest →
      cb_uart_recv_and_sync outs = (SyncResult.ok c d, 2, 1)) ∧
    (∀ c d rest,
      outs = RecvOutcome.badFrame :: RecvOutcome.badFrame :: RecvOutcome.ok c d :: rest →
      cb_uart_recv_and_sync outs = (SyncResult.ok c d, 3, 2)) := by
  refine ⟨?_, ?_, ?_, ?_⟩
  · have h := recvAndSyncLoop_attempts_le 3 outs
    simpa [cb_uart_recv_and_sync, CB_UART_MAX_SYNC_TRIALS] using h
  · intro h
    rcases outs with _ | ⟨o1, _ | ⟨o2, _ | ⟨o3, rest⟩⟩⟩ <;> simp_all
    obtain ⟨rfl, rfl, rfl⟩ := h
    simp [cb_uart_recv_and_sync, CB_UART_MAX_SYNC_TRIALS, recvAndSyncLoop.eq_def]
  · rintro c d rest rfl
    simp [cb_uart_recv_and_sync, CB_UART_MAX_SYNC_TRIALS, recvAndSyncLoop.eq_def]
  · rintro c d rest rfl
    simp [cb_uart_recv_and_sync, CB_UART_MAX_SYNC_TRIALS, recvAndSyncLoop.eq_def]

theorem recv_and_sync_witness :
    cb_uart_recv_and_sync [RecvOutcome.badFrame, RecvOutcome.badFrame, RecvOutcome.badFrame]
      = (SyncResult.badFrame, 3, 3) :=
  (recv_and_sync_flush_retry
    [RecvOutcome.badFrame, RecvOutcome.badFrame, RecvOutcome.badFrame]).2.1 (by decide)

end RaUtils


namespace RaUtils

/-- Masking with `BITMASK(len)` is reduction modulo `2^len`. -/
theorem land_bitmask (v len : Nat) : v &&& bitmask len = v % 2 ^ len := by
  apply Nat.eq_of_testBit_eq
  intro i
  simp [bitmask, Nat.testBit_land, Nat.testBit_two_pow_sub_one, Nat.testBit_mod_two_pow,
    Bool.and_comm]

/-- Disequality of naturals gives a false boolean equality test. -/
theorem beq_false_of_ne {a b : Nat} (h : ¬ a = b) : (a == b) = false :=
  beq_eq_false_iff_ne.mpr h

/-- Claim C4: for every prior `charge_control` word and every unsigned
duty value x, `cb_proto_set_duty_cycle(x)` stores `min(x, 1000)` into bits
48-57 of `charge_control` and leaves every other bit of the word
unchanged; in particular, starting from `charge_control = 0`, calling
`cb_proto_set_pwm_active(true)` and `cb_proto_set_duty_cycle(1500)` yields
the word `0x83E8000000000000`. -/
theorem set_duty_cycle_clamps_and_isolates (ctx : SafetyController) (x : Nat) :
    cb_proto_get_target_duty_cycle (cb_proto_set_duty_cycle ctx x) = min x 1000 ∧
    (∀ i, i < 48 ∨ (57 < i ∧ i < 64) →
      ((cb_proto_set_duty_cycle ctx x).charge_control).testBit i
        = ctx.charge_control.testBit i) ∧
    (cb_proto_set_duty_cycle (cb_proto_set_pwm_active {} true) 1500).charge_control
      = 0x83E8000000000000 := by
  refine ⟨?_, ?_, by decide⟩
  · show dataGetBits (dataSetBits ctx.charge_control 48 10 _) 48 10 = min x 1000
    rw [dataGetBits_dataSetBits _ 48 10 _ (by norm_num), land_bitmask]
    have h : (if x > 1000 then 1000 else x) = min x 1000 := by split <;> omega
    rw [h, Nat.mod_eq_of_lt (Nat.lt_of_le_of_lt (min_le_right x 1000) (by norm_num))]
  · intro i hi
    show (dataSetBits ctx.charge_control 48 10 _).testBit i = _
    rw [testBit_dataSetBits _ 48 10 _ i (by norm_num), if_neg (by omega)]
    simp
    omega

theorem set_duty_cycle_witness :
    ((0 : Nat) < 48 ∨ (57 < 0 ∧ 0 < 64)) ∧
    ((cb_proto_set_duty_cycle { charge_control := 0xFFFFFFFFFFFFFFFF } 1500).charge_control).testBit 0
      = (0xFFFFFFFFFFFFFFFF : Nat).testBit 0 :=
  ⟨Or.inl (by norm_num),
    (set_duty_cycle_clamps_and_isolates { charge_control := 0xFFFFFFFFFFFFFFFF } 1500).2.1 0
      (Or.inl (by norm_num))⟩

/-- Claim C9: within one monitor session the `mcs` flag is monotone: the
flag after a dispatcher step is the old flag or-ed with the two enabling
conditions (a CHARGE_STATE_2 frame, or a FW_VERSION frame whose platform
field reads CCY), so every step either leaves `mcs` unchanged or sets it
from false to true, and no step ever resets it from true to false. -/
theorem dispatchStep_mcs_monotone (ctx : SafetyController) (com data : Nat) :
    (dispatchStep ctx com data).mcs
      = (ctx.mcs || com == COM_CHARGE_STATE_2
          || (com == COM_FW_VERSION && dataGetBits data 32 8 == FW_PLATFORM_TYPE_CCY)) ∧
    (ctx.mcs = true → (dispatchStep ctx com data).mcs = true) := by
  have h : (dispatchStep ctx com data).mcs
      = (ctx.mcs || com == COM_CHARGE_STATE_2
          || (com == COM_FW_VERSION && dataGetBits data 32 8 == FW_PLATFORM_TYPE_CCY)) := by
    unfold dispatchStep cb_proto_set_mcs_mode cb_proto_fw_get_platform_type
    simp only [COM_CHARGE_STATE_2, COM_CHARGE_STATE, COM_PT1000_STATE, COM_FW_VERSION,
      COM_GIT_HASH, FW_PLATFORM_TYPE_CCY]
    split_ifs <;> simp_all [beq_false_of_ne]
  exact ⟨h, fun hm => by rw [h, hm]; simp⟩

theorem dispatchStep_mcs_witness :
    (dispatchStep { mcs := true } 0 0).mcs = true :=
  (dispatchStep_mcs_monotone { mcs := true } 0 0).2 rfl

/-- Claim C10: for every contactor index and every device state,
`cb_proto_contactorN_has_error` ignores the index entirely (the result is
identical for all indices) and returns true exactly when the CS1
safe-state reason field (bits 8-15 of `charge_state`) equals
`CS1_SAFESTATE_REASON_HV_SWITCH_MALFUNCTION`. -/
theorem contactorN_has_error_ignores_index (ctx : SafetyController) (i j : Nat) :
    cb_proto_contactorN_has_error ctx i = cb_proto_contactorN_has_error ctx j ∧
    (cb_proto_contactorN_has_error ctx i = true ↔
      cb_proto_get_safestate_reason ctx = CS1_SAFESTATE_REASON_HV_SWITCH_MALFUNCTION) := by
  unfold cb_proto_contactorN_has_error
  exact ⟨rfl, by simp⟩

end RaUtils

namespace RaUtils

theorem beBytes_length (n v : Nat) : (beBytes n v).length = n := by
  induction n generalizing v with
  | zero => simp [beBytes]
  | succ n ih => simp [beBytes, ih]

theorem beToNat_append (l : List Nat) (x : Nat) :
    beToNat (l ++ [x]) = beToNat l * 256 + x := by
  simp [beToNat, List.foldl_append]

theorem beToNat_beBytes (n v : Nat) : beToNat (beBytes n v) = v % 256 ^ n := by
  induction n generalizing v with
  | zero => simp [beBytes, beToNat, Nat.mod_one]
  | succ n ih =>
    rw [beBytes, beToNat_append, ih, pow_succ]
    rw [show (256 : Nat) ^ n * 256 = 256 * 256 ^ n from Nat.mul_comm _ _, Nat.mod_mul]
    omega

/-- An 8-byte big-endian encoding split into its elements. -/
theorem beBytes_eight (v : Nat) :
    ∃ d0 d1 d2 d3 d4 d5 d6 d7,
      beBytes 8 v = [d0, d1, d2, d3, d4, d5, d6, d7] := by
  have h := beBytes_length 8 v
  rcases hb : beBytes 8 v with _ | ⟨x0, _ | ⟨x1, _ | ⟨x2, _ | ⟨x3, _ | ⟨x4, _ | ⟨x5,
    _ | ⟨x6, _ | ⟨x7, rest⟩⟩⟩⟩⟩⟩⟩⟩ <;> rw [hb] at h <;> simp_all

/-- Claim C1: for every COM code in the defined enumeration and every
64-bit payload word, encoding an operational frame and then decoding the
resulting 12 bytes returns the same (com, word) pair; the encoder lays the
frame out as SOF=0xA5, COM, the payload big-endian, a CRC-8/J1850 over COM
and payload (9 bytes), EOF=0x03; and on any 12-byte input the decoder
fails (errno EBADMSG) exactly when SOF is not 0xA5, EOF is not 0x03, or
the CRC mismatches. -/
theorem cb_frame_roundtrip :
    (∀ com ∈ definedComs, ∀ data : Nat, data < 2 ^ 64 →
      cb_uart_recv_frame (cb_uart_send_frame com data) = .ok (com, data) ∧
      cb_uart_send_frame com data
        = [0xA5, com] ++ beBytes 8 data
            ++ [crc8_j1850 (com :: beBytes 8 data), 0x03]) ∧
    (∀ b : List Nat, b.length = 12 →
      (cb_uart_recv_frame b = .error () ↔
        ¬(b.getD 0 0 = 0xA5 ∧ b.getD 11 0 = 0x03 ∧
          crc8_j1850 ((b.drop 1).take 9) = b.getD 10 0))) := by
  constructor
  · intro com hcom data hdata
    have hcom256 : com < 256 := by fin_cases hcom <;> norm_num
    have hmod : com % 256 = com := Nat.mod_eq_of_lt hcom256
    obtain ⟨d0, d1, d2, d3, d4, d5, d6, d7, h8⟩ := beBytes_eight data
    constructor
    · show cb_uart_recv_frame
        ([CB_SOF, com % 256] ++ beBytes 8 data
          ++ [crc8_j1850 (com % 256 :: beBytes 8 data), CB_EOF]) = _
      rw [h8, hmod]
      show cb_uart_recv_frame
        [0xA5, com, d0, d1, d2, d3, d4, d5, d6, d7,
         crc8_j1850 [com, d0, d1, d2, d3, d4, d5, d6, d7], 0x03] = _
      rw [cb_uart_recv_frame]
      rw [if_neg (by simp [CB_SOF]), if_neg (by simp [CB_EOF]), if_neg (by simp)]
      have : beToNat [d0, d1, d2, d3, d4, d5, d6, d7] = data := by
        rw [← h8, beToNat_beBytes]
        exact Nat.mod_eq_of_lt (by norm_num at hdata ⊢; exact hdata)
      rw [this]
    · simp [cb_uart_send_frame, hmod, CB_SOF, CB_EOF]
  · intro b hb
    rcases b with _ | ⟨b0, _ | ⟨b1, _ | ⟨b2, _ | ⟨b3, _ | ⟨b4, _ | ⟨b5, _ | ⟨b6,
      _ | ⟨b7, _ | ⟨b8, _ | ⟨b9, _ | ⟨b10, _ | ⟨b11, rest⟩⟩⟩⟩⟩⟩⟩⟩⟩⟩⟩⟩ <;> simp_all
    rw [cb_uart_recv_frame]
    split_ifs with h1 h2 h3 <;>
      simp_all [CB_SOF, CB_EOF]

end RaUtils

namespace RaUtils

theorem cb_frame_roundtrip_witness :
    (0x07 : Nat) ∈ definedComs ∧ (5 : Nat) < 2 ^ 64 ∧
    cb_uart_recv_frame (cb_uart_send_frame 0x07 5) = .ok (0x07, 5) :=
  ⟨by decide, by decide, (cb_frame_roundtrip.1 0x07 (by decide) 5 (by decide)).1⟩

/-- Claim C3, counterexample: on the stored pt1000 word
`0x03E803E01FFC0000`, channel 2's 14-bit temperature field is `0x07FF`,
not the `0x1FFF` sentinel, so `cb_proto_pt1000_is_active` returns `true`
there, contradicting the claim that the channel decodes as unused. -/
theorem pt1000_channel2_active_counterexample :
    cb_proto_pt1000_is_active { pt1000 := 0x03E803E01FFC0000 } 2 = true ∧
    dataGetBits 0x03E803E01FFC0000 18 14 = 0x07FF := by
  constructor
  · decide
  · decide

/-- Claim C3 (amended): for the stored pt1000 word `0x03E803E01FFC0000`,
the PT1000 accessors decode channel 0 (bits 48-63) as an active channel
with temperature 25.0 degC (250 tenths) and no error flags; channel 2
(bits 16-31, field value 0x1FFC) has a top-14-bit field of 0x07FF, which
is not the 0x1FFF sentinel, so the channel reads as active with 204.7 degC
and no error flags (a field of 0x7FFC..0x7FFF would be the sentinel);
channel 3 decodes as 0.0 degC with no error; in general channel i occupies
bits 16*(3-i)..16*(3-i)+15, the top 14 bits are a signed fixed-point
temperature in 0.1 degC obtained by arithmetic right-shift of the 16-bit
field by 2, and the bottom 2 bits are error flags. -/
theorem pt1000_decode_spec_word :
    (cb_proto_pt1000_is_active { pt1000 := 0x03E803E01FFC0000 } 0 = true ∧
     cb_proto_pt1000_get_temp_tenths { pt1000 := 0x03E803E01FFC0000 } 0 = 250 ∧
     cb_proto_pt1000_get_errors { pt1000 := 0x03E803E01FFC0000 } 0 = 0) ∧
    (cb_proto_pt1000_is_active { pt1000 := 0x03E803E01FFC0000 } 2 = true ∧
     cb_proto_pt1000_get_temp_tenths { pt1000 := 0x03E803E01FFC0000 } 2 = 2047 ∧
     cb_proto_pt1000_get_errors { pt1000 := 0x03E803E01FFC0000 } 2 = 0) ∧
    (cb_proto_pt1000_get_temp_tenths { pt1000 := 0x03E803E01FFC0000 } 3 = 0 ∧
     cb_proto_pt1000_get_errors { pt1000 := 0x03E803E01FFC0000 } 3 = 0) ∧
    (∀ ctx : SafetyController, ∀ ch, ch < 4 →
      cb_proto_pt1000_get_temp_tenths ctx ch
        = Int.fdiv (sext16 ((ctx.pt1000 >>> (16 * (3 - ch))) % 2 ^ 16)) 4 ∧
      cb_proto_pt1000_get_errors ctx ch = (ctx.pt1000 >>> (16 * (3 - ch))) % 4 ∧
      cb_proto_pt1000_is_active ctx ch
        = ((ctx.pt1000 >>> (16 * (3 - ch) + 2)) % 2 ^ 14 != PT1000_TEMPERATURE_UNUSED)) := by
  refine ⟨by decide, by decide, by decide, ?_⟩
  intro ctx ch hch
  unfold cb_proto_pt1000_get_temp_tenths cb_proto_pt1000_get_errors cb_proto_pt1000_is_active
  unfold dataGetBits CB_PROTO_MAX_PT1000S
  rw [land_bitmask, land_bitmask, land_bitmask]
  refine ⟨rfl, by norm_num, rfl⟩

theorem pt1000_decode_witness :
    cb_proto_pt1000_get_errors { pt1000 := 0x1234 } 1
      = ((0x1234 : Nat) >>> 32) % 4 :=
  ((pt1000_decode_spec_word).2.2.2 { pt1000 := 0x1234 } 1 (by norm_num)).2.1

end RaUtils

namespace RaUtils

theorem chunksOf_nil : chunksOf [] = [] := by
  rw [chunksOf]
  simp

theorem chunksOf_cons (x : Nat) (xs : List Nat) :
    chunksOf (x :: xs)
      = (x :: xs).take MAX_DATA_PACKET_PAYLOAD
          :: chunksOf ((x :: xs).drop MAX_DATA_PACKET_PAYLOAD) := by
  rw [chunksOf]
  simp

/-- Chunk sizes of the cut buffer are the loop's `min(remaining, 1024)`. -/
theorem chunksOf_map_length (l : List Nat) :
    (chunksOf l).map List.length = chunkLens l.length := by
  have H : ∀ n (l : List Nat), l.length = n → (chunksOf l).map List.length = chunkLens l.length := by
    intro n
    induction n using Nat.strong_induction_on with
    | _ n ih =>
      intro l hlen
      match l with
      | [] => rw [chunksOf_nil, chunkLens]; simp
      | x :: xs =>
        rw [chunksOf_cons, chunkLens.eq_def]
        have hne : (x :: xs).length ≠ 0 := by simp
        rw [if_neg (by simp)]
        simp only [List.map_cons, List.length_take]
        have hdrop : ((x :: xs).drop MAX_DATA_PACKET_PAYLOAD).length
            = (x :: xs).length - MAX_DATA_PACKET_PAYLOAD := by
          simp [List.length_drop]
        have hM : MAX_DATA_PACKET_PAYLOAD = 1024 := rfl
        have := ih (((x :: xs).drop MAX_DATA_PACKET_PAYLOAD).length)
          (by rw [hdrop, hM, ← hlen]; simp; omega)
          ((x :: xs).drop MAX_DATA_PACKET_PAYLOAD) rfl
        rw [this, hdrop]
        congr 1
        omega
  exact H l.length l rfl

/-- Number of chunks is `ceil(len / 1024)`. -/
theorem chunkLens_length (n : Nat) :
    (chunkLens n).length = (n + (MAX_DATA_PACKET_PAYLOAD - 1)) / MAX_DATA_PACKET_PAYLOAD := by
  induction n using Nat.strong_induction_on with
  | _ n ih =>
    rw [chunkLens.eq_def]
    split_ifs with h
    · subst h; simp [MAX_DATA_PACKET_PAYLOAD]
    · simp only [List.length_cons]
      rw [ih (n - MAX_DATA_PACKET_PAYLOAD) (by simp [MAX_DATA_PACKET_PAYLOAD]; omega)]
      simp [MAX_DATA_PACKET_PAYLOAD]
      omega

/-- Every chunk size is at most 1024. -/
theorem chunkLens_le (n : Nat) : ∀ m ∈ chunkLens n, m ≤ MAX_DATA_PACKET_PAYLOAD := by
  induction n using Nat.strong_induction_on with
  | _ n ih =>
    intro m hm
    rw [chunkLens.eq_def] at hm
    split_ifs at hm with h
    · simp at hm
    · simp only [List.mem_cons] at hm
      rcases hm with rfl | hm
      · exact min_le_right _ _
      · exact ih (n - MAX_DATA_PACKET_PAYLOAD) (by simp [MAX_DATA_PACKET_PAYLOAD]; omega) m hm

end RaUtils

namespace RaUtils

/-- When every awaited status is OK, the loop emits exactly the chunks. -/
theorem raWriteLoop_all_ok (ok : Nat → Bool) :
    ∀ n (rest : List Nat), rest.length = n → ∀ k,
      (∀ i, k ≤ i → i < k + (chunksOf rest).length → ok i = true) →
      raWriteLoop ok k rest = (true, chunksOf rest) := by
  intro n
  induction n using Nat.strong_induction_on with
  | _ n ih =>
    intro rest hlen k h
    match rest with
    | [] => rw [raWriteLoop, chunksOf_nil]
    | x :: xs =>
      rw [raWriteLoop]
      have hM : MAX_DATA_PACKET_PAYLOAD = 1024 := rfl
      have hlc : (chunksOf (x :: xs)).length
          = (chunksOf ((x :: xs).drop MAX_DATA_PACKET_PAYLOAD)).length + 1 := by
        rw [chunksOf_cons]; simp
      have hok : ok k = true := h k le_rfl (by omega)
      rw [hok]
      simp only [if_true]
      have := ih ((x :: xs).drop MAX_DATA_PACKET_PAYLOAD).length
        (by rw [List.length_drop, hM, ← hlen]; simp; omega)
        ((x :: xs).drop MAX_DATA_PACKET_PAYLOAD) rfl (k + 1)
        (fun i hi1 hi2 => h i (by omega) (by omega))
      rw [this, chunksOf_cons]

/-- The loop stops at the first non-OK status, having emitted all chunks
up to and including the one whose status failed. -/
theorem raWriteLoop_first_fail (ok : Nat → Bool) :
    ∀ n (rest : List Nat), rest.length = n → ∀ k j, k ≤ j →
      j < k + (chunksOf rest).length →
      (∀ i, k ≤ i → i < j → ok i = true) → ok j = false →
      raWriteLoop ok k rest = (false, (chunksOf rest).take (j - k + 1)) := by
  intro n
  induction n using Nat.strong_induction_on with
  | _ n ih =>
    intro rest hlen k j hkj hjlt hprev hfail
    match rest with
    | [] =>
      rw [chunksOf_nil] at hjlt
      simp at hjlt
      omega
    | x :: xs =>
      rw [raWriteLoop]
      have hM : MAX_DATA_PACKET_PAYLOAD = 1024 := rfl
      have hlc : (chunksOf (x :: xs)).length
          = (chunksOf ((x :: xs).drop MAX_DATA_PACKET_PAYLOAD)).length + 1 := by
        rw [chunksOf_cons]; simp
      by_cases hkj0 : k = j
      · subst hkj0
        rw [hfail]
        simp only [Bool.false_eq_true, if_false]
        rw [chunksOf_cons]
        simp
      · have hok : ok k = true := hprev k le_rfl (by omega)
        rw [hok]
        simp only [if_true]
        have := ih ((x :: xs).drop MAX_DATA_PACKET_PAYLOAD).length
          (by rw [List.length_drop, hM, ← hlen]; simp; omega)
          ((x :: xs).drop MAX_DATA_PACKET_PAYLOAD) rfl (k + 1) j (by omega)
          (by omega) (fun i hi1 hi2 => hprev i (by omega) hi2) hfail
        rw [this, chunksOf_cons]
        simp only [List.take_cons, Prod.mk.injEq, true_and]
        rw [show j - k + 1 = (j - (k + 1) + 1) + 1 by omega]
        simp

end RaUtils

namespace RaUtils

/-- Claim C7: for every buffer of length len written at start address s,
the write flow first sends one WRITE command carrying the address range
[s, s+len-1] (uint32 arithmetic) and requires an OK status, then emits
ceil(len/1024) data packets each carrying at most 1024 bytes, awaiting an
OK status after every packet and failing the entire write on the first
non-OK status; concretely a 2600-byte write at 0 yields a WRITE command
with end address 0x00000A27 followed by data packets of lengths 1024,
1024 and 552. -/
theorem ra_write_flow :
    (∀ s buf ok, (ra_write s buf ok).2.headD []
        = rwe_cmd_bytes WRITE_CMD (s % 2 ^ 32)
            ((s + buf.length + (2 ^ 32 - 1)) % 2 ^ 32)) ∧
    (∀ s buf, ra_write s buf (fun _ => true)
        = (true, rwe_cmd_bytes WRITE_CMD (s % 2 ^ 32)
            ((s + buf.length + (2 ^ 32 - 1)) % 2 ^ 32)
            :: (chunksOf buf).map write_data_pkt_bytes)) ∧
    (∀ buf : List Nat,
      (chunksOf buf).map List.length = chunkLens buf.length ∧
      (chunksOf buf).length
        = (buf.length + (MAX_DATA_PACKET_PAYLOAD - 1)) / MAX_DATA_PACKET_PAYLOAD ∧
      ∀ c ∈ chunksOf buf, c.length ≤ MAX_DATA_PACKET_PAYLOAD) ∧
    (∀ s buf (ok : Nat → Bool) j, 1 ≤ j → j ≤ (chunksOf buf).length →
      ok 0 = true → (∀ i, 1 ≤ i → i < j → ok i = true) → ok j = false →
      ra_write s buf ok
        = (false, rwe_cmd_bytes WRITE_CMD (s % 2 ^ 32)
            ((s + buf.length + (2 ^ 32 - 1)) % 2 ^ 32)
            :: ((chunksOf buf).take j).map write_data_pkt_bytes)) ∧
    (∀ s buf (ok : Nat → Bool), ok 0 = false →
      ra_write s buf ok
        = (false, [rwe_cmd_bytes WRITE_CMD (s % 2 ^ 32)
            ((s + buf.length + (2 ^ 32 - 1)) % 2 ^ 32)])) ∧
    (chunkLens 2600 = [1024, 1024, 552] ∧
      (0 + 2600 + (2 ^ 32 - 1)) % 2 ^ 32 = 0xA27) := by
  refine ⟨?_, ?_, ?_, ?_, ?_, ?_, ?_⟩
  · intro s buf ok
    unfold ra_write
    split_ifs <;> simp
  · intro s buf
    unfold ra_write
    rw [if_pos rfl]
    rw [raWriteLoop_all_ok (fun _ => true) buf.length buf rfl 1 (fun i _ _ => rfl)]
  · intro buf
    exact ⟨chunksOf_map_length buf, by
        rw [← chunkLens_length, ← chunksOf_map_length, List.length_map], by
      intro c hc
      have := chunkLens_le buf.length c.length
      apply this
      rw [← chunksOf_map_length]
      exact List.mem_map_of_mem List.length hc⟩
  · intro s buf ok j hj1 hjle hok0 hprev hfail
    unfold ra_write
    rw [hok0]
    simp only [if_true]
    rw [raWriteLoop_first_fail ok buf.length buf rfl 1 j hj1 (by omega)
      (fun i hi1 hi2 => hprev i hi1 hi2) hfail]
    rw [show j - 1 + 1 = j by omega]
  · intro s buf ok hok0
    unfold ra_write
    rw [hok0]
    simp
  · have e0 : chunkLens 0 = [] := by rw [chunkLens.eq_def]; norm_num
    have e552 : chunkLens 552 = [552] := by
      rw [chunkLens.eq_def]; norm_num [MAX_DATA_PACKET_PAYLOAD, e0]
    have e1576 : chunkLens 1576 = [1024, 552] := by
      rw [chunkLens.eq_def]; norm_num [MAX_DATA_PACKET_PAYLOAD, e552]
    rw [chunkLens.eq_def]; norm_num [MAX_DATA_PACKET_PAYLOAD, e1576]
  · norm_num

theorem ra_write_flow_witness :
    (1 ≤ 1 ∧ (fun i => i != 1) 0 = true ∧ (fun i => i != 1) 1 = false) ∧
    ra_write 0 [1, 2] (fun i => i != 1)
      = (false, rwe_cmd_bytes WRITE_CMD (0 % 2 ^ 32) ((0 + 2 + (2 ^ 32 - 1)) % 2 ^ 32)
          :: ((chunksOf [1, 2]).take 1).map write_data_pkt_bytes) :=
  have hch : chunksOf [1, 2] = [[1, 2]] := by
    rw [chunksOf_cons, List.take_of_length_le (by norm_num [MAX_DATA_PACKET_PAYLOAD]),
      List.drop_eq_nil_of_le (by norm_num [MAX_DATA_PACKET_PAYLOAD]), chunksOf_nil]
  ⟨⟨le_rfl, rfl, rfl⟩,
    ra_write_flow.2.2.2.1 0 [1, 2] (fun i => i != 1) 1 le_rfl
      (by rw [hch]; norm_num)
      rfl (fun i hi1 hi2 => absurd (Nat.lt_of_le_of_lt hi1 hi2) (by simp)) rfl⟩

end RaUtils

namespace RaUtils

theorem pb_init_bytes_eq :
    pb_init_bytes
      = [0x0D, 0xF0, 0x01, 0xC0, 1, 0,
         0xFF, 0x1F, 0xFF, 0x1F, 0xFF, 0x1F, 0xFF, 0x1F,
         0, 0, 0, 0, 0, 0, 0, 0, 0, 0, 0, 0, 0, 0, 0, 0, 0,
         0x0D, 0xF0, 0x01, 0xC0, 0x25] := by
  set_option maxRecDepth 10000 in decide

/-- Slicing facts used to relate `pb_read`'s view of the 22-byte prefix to
the whole stream. -/
theorem take22_take4 (f : List Nat) :
    (f.take UNVERSIONED_PB_SIZE).take 4 = f.take 4 := by
  rw [List.take_take]
  norm_num [UNVERSIONED_PB_SIZE]

theorem take22_drop17_take4 (f : List Nat) :
    ((f.take UNVERSIONED_PB_SIZE).drop 17).take 4 = (f.drop 17).take 4 := by
  rw [List.drop_take]
  rw [List.take_take]
  norm_num [UNVERSIONED_PB_SIZE]

end RaUtils

namespace RaUtils

/-- Field-level description of the migration of a 22-byte legacy block. -/
theorem pb_migrate_fields (old : List Nat) (h : old.length = UNVERSIONED_PB_SIZE) :
    ((pb_migrate_unversioned_to_versioned old pb_init_bytes).drop 22).take 2
      = ((old.drop 12).take 2).map
          (fun c => if c = CONTACTOR_WITH_FEEDBACK_NO then CONTACTOR_WITH_FEEDBACK_NC else c) ∧
    ((pb_migrate_unversioned_to_versioned old pb_init_bytes).drop 6).take 8
      = (old.drop 4).take 8 ∧
    ((pb_migrate_unversioned_to_versioned old pb_init_bytes).drop 28).take 3
      = (old.drop 14).take 3 ∧
    (pb_migrate_unversioned_to_versioned old pb_init_bytes).take 6
      = markerBytes ++ [PARAMETER_BLOCK_VERSION, 0x00] ∧
    pb_check_crc (pb_migrate_unversioned_to_versioned old pb_init_bytes) = true := by
  rcases old with _ | ⟨b0, _ | ⟨b1, _ | ⟨b2, _ | ⟨b3, _ | ⟨b4, _ | ⟨b5, _ | ⟨b6, _ | ⟨b7,
    _ | ⟨b8, _ | ⟨b9, _ | ⟨b10, _ | ⟨b11, _ | ⟨b12, _ | ⟨b13, _ | ⟨b14, _ | ⟨b15,
    _ | ⟨b16, _ | ⟨b17, _ | ⟨b18, _ | ⟨b19, _ | ⟨b20, _ | ⟨b21,
    rest⟩⟩⟩⟩⟩⟩⟩⟩⟩⟩⟩⟩⟩⟩⟩⟩⟩⟩⟩⟩⟩⟩ <;> simp_all [UNVERSIONED_PB_SIZE]
  simp [pb_migrate_unversioned_to_versioned, setBytes, pb_init_bytes_eq, pb_refresh_crc,
    pb_check_crc, PARAM_BLOCK_SIZE, markerBytes, PARAMETER_BLOCK_VERSION]

end RaUtils

namespace RaUtils

/-- Claim C8: `pb_read` auto-detects the parameter-block format: if the
leading magic mismatches it returns BAD_MAGIC; if the trailing magic also
matches at the legacy offset (byte 17) it treats the input as the legacy
block, validates the legacy CRC-8 (returning BAD_CRC on mismatch) and
otherwise returns the migration of the legacy fields into the versioned
shape, remapping every contactor with the deprecated
CONTACTOR_WITH_FEEDBACK_NO encoding to CONTACTOR_WITH_FEEDBACK_NC and
recomputing the CRC of the new shape; otherwise it reads the remaining
bytes and requires the trailing magic at the new offset (byte 31) and a
valid CRC. -/
theorem pb_read_autodetects_format :
    (∀ f : List Nat, UNVERSIONED_PB_SIZE ≤ f.length → f.take 4 ≠ markerBytes →
      pb_read f = .error .badMagic) ∧
    (∀ f : List Nat, UNVERSIONED_PB_SIZE ≤ f.length → f.take 4 = markerBytes →
      (f.drop 17).take 4 = markerBytes →
      (pb_check_unversioned_param_block_crc (f.take UNVERSIONED_PB_SIZE) = false →
        pb_read f = .error .badCrc) ∧
      (pb_check_unversioned_param_block_crc (f.take UNVERSIONED_PB_SIZE) = true →
        pb_read f
          = .ok (pb_migrate_unversioned_to_versioned (f.take UNVERSIONED_PB_SIZE)
              pb_init_bytes) ∧
        ((pb_migrate_unversioned_to_versioned (f.take UNVERSIONED_PB_SIZE)
            pb_init_bytes).drop 22).take 2
          = (((f.take UNVERSIONED_PB_SIZE).drop 12).take 2).map
              (fun c => if c = CONTACTOR_WITH_FEEDBACK_NO then CONTACTOR_WITH_FEEDBACK_NC
                        else c) ∧
        pb_check_crc (pb_migrate_unversioned_to_versioned (f.take UNVERSIONED_PB_SIZE)
            pb_init_bytes) = true)) ∧
    (∀ f : List Nat, PARAM_BLOCK_SIZE ≤ f.length → f.take 4 = markerBytes →
      (f.drop 17).take 4 ≠ markerBytes →
      (((f.take PARAM_BLOCK_SIZE).drop 31).take 4 ≠ markerBytes →
        pb_read f = .error .badMagic) ∧
      (((f.take PARAM_BLOCK_SIZE).drop 31).take 4 = markerBytes →
        (pb_check_crc (f.take PARAM_BLOCK_SIZE) = false → pb_read f = .error .badCrc) ∧
        (pb_check_crc (f.take PARAM_BLOCK_SIZE) = true →
          pb_read f = .ok (f.take PARAM_BLOCK_SIZE)))) := by
  have hsz22 : UNVERSIONED_PB_SIZE = 22 := rfl
  have hsz36 : PARAM_BLOCK_SIZE = 36 := rfl
  refine ⟨?_, ?_, ?_⟩
  · intro f hlen hmagic
    have hnl : ¬ f.length < UNVERSIONED_PB_SIZE := by omega
    unfold pb_read
    simp [take22_take4, hnl, hmagic]
  · intro f hlen hmagic hlegacy
    have hnl : ¬ f.length < UNVERSIONED_PB_SIZE := by omega
    constructor
    · intro hbad
      unfold pb_read
      simp [take22_take4, take22_drop17_take4, hnl, hmagic, hlegacy, hbad]
    · intro hgood
      have hfields := pb_migrate_fields (f.take UNVERSIONED_PB_SIZE)
        (by rw [List.length_take]; omega)
      refine ⟨?_, hfields.1, hfields.2.2.2.2⟩
      unfold pb_read
      simp [take22_take4, take22_drop17_take4, hnl, hmagic, hlegacy, hgood]
  · intro f hlen hmagic hnotlegacy
    have hnl : ¬ f.length < UNVERSIONED_PB_SIZE := by omega
    have hnl36 : ¬ f.length < PARAM_BLOCK_SIZE := by omega
    constructor
    · intro heob
      unfold pb_read
      simp [take22_take4, take22_drop17_take4, hnl, hnl36, hmagic, hnotlegacy, heob]
    · intro heob
      constructor
      · intro hbad
        unfold pb_read
        simp [take22_take4, take22_drop17_take4, hnl, hnl36, hmagic, hnotlegacy, heob, hbad]
      · intro hgood
        unfold pb_read
        simp [take22_take4, take22_drop17_take4, hnl, hnl36, hmagic, hnotlegacy, heob, hgood]

end RaUtils

namespace RaUtils

set_option maxRecDepth 10000 in
theorem pb_read_witness :
    pb_read [0x0D, 0xF0, 0x01, 0xC0, 0x48, 0xF4, 0x48, 0xF8, 0x48, 0xFC, 0x50, 0x00,
             2, 2, 1, 1, 1, 0x0D, 0xF0, 0x01, 0xC0, 131]
      = .ok (pb_migrate_unversioned_to_versioned
          (([0x0D, 0xF0, 0x01, 0xC0, 0x48, 0xF4, 0x48, 0xF8, 0x48, 0xFC, 0x50, 0x00,
             2, 2, 1, 1, 1, 0x0D, 0xF0, 0x01, 0xC0, 131] : List Nat).take UNVERSIONED_PB_SIZE)
          pb_init_bytes) :=
  ((pb_read_autodetects_format.2.1
      [0x0D, 0xF0, 0x01, 0xC0, 0x48, 0xF4, 0x48, 0xF8, 0x48, 0xFC, 0x50, 0x00,
       2, 2, 1, 1, 1, 0x0D, 0xF0, 0x01, 0xC0, 131]
      (by decide) (by decide) (by decide)).2 (by decide)).1

end RaUtils

